import Mathlib

/-!
Shallow embedding of the cost-aware orchestration core of the repository:
the Nemotron bridge (reasoning gateway, budget ledger, response cache), the
cost-aware orchestrator (task value classifier, routing policy, cost tracking)
and the task-graph workflow engine (fixed pipelines, custom workflows,
per-step failure handling).  Money amounts and scores are modelled as
rationals; Python dicts keyed by strings become association lists; the remote
provider call is modelled as an oracle argument of type Option ProviderUsage,
where none stands for any failure of the remote call (exception, timeout,
non-200, malformed response).
-/

/-- Association-list lookup, modelling Python dict lookup: returns the value
bound to the first occurrence of the key, or none. -/
def alist_find {α β : Type} [DecidableEq α] (k : α) : List (α × β) → Option β
  | [] => none
  | (a, b) :: rest => if a = k then some b else alist_find k rest

namespace NemotronBridge

/-- Agent → model mapping from nemotron_bridge.py (AGENT_MODEL_MAP). -/
def AGENT_MODEL_MAP : List (String × String) :=
  [ ("strategy", "nvidia/llama-3.3-nemotron-super-49b-v1.5"),
    ("risk_assessment", "nvidia/llama-3.3-nemotron-super-49b-v1.5"),
    ("regulation", "nvidia/llama-3.1-nemotron-70b-instruct"),
    ("research", "nvidia/llama-3.1-nemotron-70b-instruct"),
    ("dev", "nvidia/llama-3.1-nemotron-70b-instruct"),
    ("prototype", "nvidia/llama-3.1-nemotron-70b-instruct"),
    ("gtm", "nvidia/llama-3.1-nemotron-70b-instruct"),
    ("automation", "nvidia/llama-3.1-nemotron-70b-instruct"),
    ("prioritization", "nvidia/llama-3.1-nemotron-70b-instruct"),
    ("prd", "nvidia/llama-3.1-nemotron-70b-instruct"),
    ("default", "nvidia/llama-3.1-nemotron-70b-instruct") ]

/-- Estimated costs per 1M tokens (MODEL_COSTS in nemotron_bridge.py). -/
def MODEL_COSTS : List (String × ℚ) :=
  [ ("nvidia/llama-3.3-nemotron-super-49b-v1.5", 3/1000),
    ("nvidia/llama-3.1-nemotron-70b-instruct", 1/1000) ]

/-- NemotronBridge.get_model_for_agent: AGENT_MODEL_MAP.get(name, default). -/
def get_model_for_agent (agent_name : String) : String :=
  (alist_find agent_name AGENT_MODEL_MAP).getD
    ((alist_find "default" AGENT_MODEL_MAP).getD "nvidia/llama-3.1-nemotron-70b-instruct")

/-- NemotronBridge.estimate_cost: (tokens / 1_000_000) * MODEL_COSTS.get(model, 0.001). -/
def estimate_cost (tokens : Nat) (model : String) : ℚ :=
  ((tokens : ℚ) / 1000000) * ((alist_find model MODEL_COSTS).getD (1/1000))

/-- Token usage of a successful remote provider call (OpenAI-style usage object
plus the response text).  A failed remote call is modelled as the absence of
this value. -/
structure ProviderUsage where
  text : String
  prompt_tokens : Nat
  completion_tokens : Nat
  total_tokens : Nat
deriving DecidableEq

/-- The dictionary returned by NemotronBridge.call_nemotron (the usage
sub-dict is flattened into the three token fields). -/
structure CallResult where
  success : Bool
  response : String
  model : String
  agent : String
  prompt_tokens : Nat
  completion_tokens : Nat
  total_tokens : Nat
  cost : ℚ
  cumulative_cost : ℚ
  cached : Bool
deriving DecidableEq

/-- A record appended to call_history for each completed remote call. -/
structure CallRecord where
  agent : String
  model : String
  task_type : String
  prompt_tokens : Nat
  completion_tokens : Nat
  total_tokens : Nat
  cost : ℚ
  cumulative_cost : ℚ
deriving DecidableEq

/-- Cache keys are the composite f-string agent_name:prompt[:100]:task_type,
modelled as the triple of its components (the 100-character prompt prefix is
kept as a character list). -/
def cache_key (agent_name prompt task_type : String) : String × List Char × String :=
  (agent_name, prompt.toList.take 100, task_type)

/-- Mutable state of the NemotronBridge instance.  has_client records whether
an API key was configured at construction (self.client is not None). -/
structure BridgeState where
  has_client : Bool
  total_budget : ℚ
  call_count : Nat
  call_history : List CallRecord
  response_cache : List ((String × List Char × String) × CallResult)
  total_cost : ℚ
deriving DecidableEq

/-- A fresh bridge with the default configured budget of 60 dollars. -/
def init_bridge (has_client : Bool) : BridgeState :=
  { has_client := has_client, total_budget := 60, call_count := 0,
    call_history := [], response_cache := [], total_cost := 0 }

/-- NemotronBridge.can_afford_call.  The method only reads budget fields and
returns a Bool; the state is returned unchanged to make the absence of
mutation explicit. -/
def can_afford_call (st : BridgeState) (estimated_tokens : Nat) (model : String) :
    Bool × BridgeState :=
  let estimated_cost := estimate_cost estimated_tokens model
  let remaining_budget := st.total_budget - st.total_cost
  if estimated_cost > remaining_budget then (false, st) else (true, st)

/-- NemotronBridge._generate_simulated_response.  The source returns long
multi-line agent-specific template strings; only their heads are kept here
since no verified property depends on the text, only on which branch is
taken and that the response is deterministic. -/
def generate_simulated_response (prompt : String) (agent_name : String) : String :=
  if agent_name = "strategy" then "Strategic Analysis: Market Opportunity"
  else if agent_name = "research" then "Research Insights: User Needs Analysis"
  else if agent_name = "dev" then "Development Plan: User Stories Generated"
  else agent_name ++ " Analysis: key recommendations"

/-- NemotronBridge._fallback_to_simulated: zero tokens, zero cost, success,
state untouched. -/
def fallback_to_simulated (st : BridgeState) (prompt : String) (agent_name : String) :
    CallResult × BridgeState :=
  ({ success := true,
     response := generate_simulated_response prompt agent_name,
     model := "simulated_fallback",
     agent := agent_name,
     prompt_tokens := 0, completion_tokens := 0, total_tokens := 0,
     cost := 0, cumulative_cost := st.total_cost, cached := false }, st)

/-- On a cache hit the source sets cached["cached"] = True on the stored dict
itself before returning it; this helper mirrors that in-place mutation. -/
def set_cached_true (key : String × List Char × String)
    (cache : List ((String × List Char × String) × CallResult)) :
    List ((String × List Char × String) × CallResult) :=
  cache.map (fun e => if e.1 = key then (e.1, { e.2 with cached := true }) else e)

/-- NemotronBridge.call_nemotron.  Control flow of the source: cache check
first; then missing-client check; then affordability check; then the remote
call (the provider oracle), whose failure for any reason falls back to the
simulated response; on success the cost is added to total_cost, a CallRecord
is appended, and the result is cached. -/
def call_nemotron (st : BridgeState) (provider : Option ProviderUsage)
    (prompt agent_name task_type : String) (max_tokens : Nat) :
    CallResult × BridgeState :=
  let key := cache_key agent_name prompt task_type
  match alist_find key st.response_cache with
  | some cached_result =>
      ({ cached_result with cached := true },
       { st with response_cache := set_cached_true key st.response_cache })
  | none =>
      if st.has_client = false then
        fallback_to_simulated st prompt agent_name
      else
        let model := get_model_for_agent agent_name
        if (can_afford_call st max_tokens model).1 = false then
          fallback_to_simulated st prompt agent_name
        else
          match provider with
          | none => fallback_to_simulated st prompt agent_name
          | some usage =>
              let cost := estimate_cost usage.total_tokens model
              let new_total := st.total_cost + cost
              let record : CallRecord :=
                { agent := agent_name, model := model, task_type := task_type,
                  prompt_tokens := usage.prompt_tokens,
                  completion_tokens := usage.completion_tokens,
                  total_tokens := usage.total_tokens,
                  cost := cost, cumulative_cost := new_total }
              let result : CallResult :=
                { success := true, response := usage.text, model := model,
                  agent := agent_name,
                  prompt_tokens := usage.prompt_tokens,
                  completion_tokens := usage.completion_tokens,
                  total_tokens := usage.total_tokens,
                  cost := cost, cumulative_cost := new_total, cached := false }
              (result,
               { st with total_cost := new_total,
                         call_count := st.call_count + 1,
                         call_history := st.call_history ++ [record],
                         response_cache := (key, result) :: st.response_cache })

/-- NemotronBridge._get_budget_status: four-tier classification of the
percentage of budget used, thresholds 95 / 85 / 70. -/
def get_budget_status (percentage : ℚ) : String :=
  if percentage ≥ 95 then "critical"
  else if percentage ≥ 85 then "warning"
  else if percentage ≥ 70 then "moderate"
  else "healthy"

end NemotronBridge

namespace CostAwareOrchestrator

/-- TaskValue enum values from cost_aware_orchestrator.py. -/
def TaskValue.CRITICAL : ℚ := 1
def TaskValue.HIGH : ℚ := 8/10
def TaskValue.MEDIUM : ℚ := 1/2
def TaskValue.LOW : ℚ := 1/5
def TaskValue.FORMATTING : ℚ := 1/10

/-- Context flags consulted by _calculate_task_value. -/
structure AgentContextFlags where
  affects_multiple_agents : Bool
  time_sensitive : Bool
  high_impact : Bool
deriving DecidableEq

/-- High-value task types (base value TaskValue.HIGH). -/
def high_value_types : List String :=
  [ "orchestration", "strategic_planning", "risk_analysis", "prioritization",
    "complex_reasoning", "multi_agent_coordination", "launch_plan",
    "marketing_strategy", "pricing", "messaging", "gtm", "idea_generation",
    "competitive_analysis", "user_research", "user_stories", "backlog",
    "mockup", "design", "compliance_check", "regulation",
    "workflow_automation" ]

/-- Medium-value task types (base value TaskValue.MEDIUM). -/
def medium_value_types : List String :=
  [ "market_sizing", "user_research_synthesis", "research", "analysis" ]

/-- Low-value task types (base value TaskValue.LOW). -/
def low_value_types : List String :=
  [ "formatting", "simple_extraction", "data_aggregation", "template_filling" ]

/-- CostAwareOrchestrator._has_similar_cached_task: the source body is a
constant return False (the semantic-similarity check is unimplemented). -/
def has_similar_cached_task (task_description : String) : Bool := false

/-- The task-value cache key f-string task_type_hash(task_description[:50]),
modelled as the pair of the task type and the 50-character description
prefix that determines the hash. -/
def value_cache_key (task_type task_description : String) : String × List Char :=
  (task_type, task_description.toList.take 50)

/-- CostAwareOrchestrator._calculate_task_value: cache check first (key built
from task_type and description prefix only), otherwise base value from the
three static type sets (unknown types default to MEDIUM) plus additive
context adjustments, capped above at 1 by min; the computed value is stored
in the cache.  Returns the score and the updated cache. -/
def calculate_task_value (cache : List ((String × List Char) × ℚ))
    (task_type task_description : String) (context : AgentContextFlags) :
    ℚ × List ((String × List Char) × ℚ) :=
  let key := value_cache_key task_type task_description
  match alist_find key cache with
  | some v => (v, cache)
  | none =>
      let base_value :=
        if task_type ∈ high_value_types then TaskValue.HIGH
        else if task_type ∈ medium_value_types then TaskValue.MEDIUM
        else if task_type ∈ low_value_types then TaskValue.LOW
        else TaskValue.MEDIUM
      let adjustments :=
        (if context.affects_multiple_agents then (1 : ℚ)/10 else 0)
        + (if context.time_sensitive then (1 : ℚ)/10 else 0)
        + (if context.high_impact then (15 : ℚ)/100 else 0)
        + (if has_similar_cached_task task_description then -((2 : ℚ)/10) else 0)
      let final_value := min 1 (base_value + adjustments)
      (final_value, (key, final_value) :: cache)

/-- A record appended to budget_history by _track_cost. -/
structure BudgetRecord where
  tokens : Nat
  cost : ℚ
  remaining_budget : ℚ
deriving DecidableEq

/-- Mutable state of the CostAwareOrchestrator instance. -/
structure OrchestratorState where
  total_budget : ℚ
  used_budget : ℚ
  budget_history : List BudgetRecord
  task_value_cache : List ((String × List Char) × ℚ)
  nemotron_cost_per_1k_tokens : ℚ
  avg_tokens_per_call : Nat
deriving DecidableEq

/-- A fresh orchestrator: total budget 40, used 0, cost rate 0.002 per 1k. -/
def init_orchestrator : OrchestratorState :=
  { total_budget := 40, used_budget := 0, budget_history := [],
    task_value_cache := [], nemotron_cost_per_1k_tokens := 2/1000,
    avg_tokens_per_call := 2000 }

/-- CostAwareOrchestrator.should_use_nemotron: computes the value score (which
may add one entry to the task-value cache), then applies the three-tier
decision table on the remaining-budget fraction.  Returns ((should_use,
value_score), updated state). -/
def should_use_nemotron (st : OrchestratorState)
    (task_type task_description : String) (context : AgentContextFlags) :
    (Bool × ℚ) × OrchestratorState :=
  let vc := calculate_task_value st.task_value_cache task_type task_description context
  let value_score := vc.1
  let st' := { st with task_value_cache := vc.2 }
  let remaining_budget := st.total_budget - st.used_budget
  let budget_frac := remaining_budget / st.total_budget
  if value_score ≥ TaskValue.HIGH then
    if budget_frac > 3/10 then ((true, value_score), st')
    else if budget_frac > 1/10 ∧ value_score ≥ TaskValue.CRITICAL then
      ((true, value_score), st')
    else ((false, value_score), st')
  else if value_score ≥ TaskValue.MEDIUM then
    if budget_frac > 5/10 then ((true, value_score), st')
    else ((false, value_score), st')
  else ((false, value_score), st')

/-- CostAwareOrchestrator._track_cost: cost = (total_tokens / 1000) * rate,
added to used_budget, with a BudgetRecord appended. -/
def track_cost (st : OrchestratorState) (total_tokens : Nat) : OrchestratorState :=
  let cost := ((total_tokens : ℚ) / 1000) * st.nemotron_cost_per_1k_tokens
  { st with used_budget := st.used_budget + cost,
            budget_history := st.budget_history ++
              [{ tokens := total_tokens, cost := cost,
                 remaining_budget := st.total_budget - (st.used_budget + cost) }] }

/-- CostAwareOrchestrator._get_budget_status_level: four-tier classification
with thresholds 90 / 75 / 50. -/
def get_budget_status_level (percentage_used : ℚ) : String :=
  if percentage_used ≥ 90 then "critical"
  else if percentage_used ≥ 75 then "warning"
  else if percentage_used ≥ 50 then "moderate"
  else "healthy"

/-- Fixture: orchestrator with 34 of 40 dollars spent, so the remaining
budget fraction is 0.15 (between 0.1 and 0.3). -/
def emergency_budget_state : OrchestratorState :=
  { init_orchestrator with used_budget := 34 }

/-- Fixture: orchestrator with 38 of 40 dollars spent, so the remaining
budget fraction is 0.05 (below 0.1). -/
def exhausted_budget_state : OrchestratorState :=
  { init_orchestrator with used_budget := 38 }

/-- Fixture: context flags that raise an "orchestration" task to a value
score of min 1 (0.8 + 0.1 + 0.15) = 1. -/
def urgent_flags : AgentContextFlags :=
  { affects_multiple_agents := false, time_sensitive := true, high_impact := true }

end CostAwareOrchestrator

namespace TaskGraph

/-- A step result as produced by BaseAgent.format_output: agent name, the
final status set by update_status, and the result payload (abstracted to the
string content, since only status and agent identity matter to the verified
workflow properties). -/
structure StepResult where
  agent : String
  status : String
  result : String
deriving DecidableEq

/-- One agent invocation, modelling the try/except inside every agent's
execute method (e.g. RegulationAgent.execute): the agent's task logic is an
Except value; on ok the step completes, on error the exception is caught and
recorded as a failed step result.  The function is total: an agent never
propagates its logic's exception to the workflow. -/
def agent_execute (name : String) (logic : Except String String) : StepResult :=
  match logic with
  | Except.ok r => { agent := name, status := "completed", result := r }
  | Except.error e => { agent := name, status := "failed", result := e }

/-- Summary fields computed by TaskGraph._generate_workflow_summary (the
key_outputs extraction is omitted: it only reformats completed payload
text). -/
structure WorkflowSummary where
  total_steps : Nat
  completed : Nat
  failed : Nat
  agents_used : List String
deriving DecidableEq

/-- TaskGraph._generate_workflow_summary: counts of completed and failed
steps plus the deduplicated agent list. -/
def generate_workflow_summary (steps : List StepResult) : WorkflowSummary :=
  { total_steps := steps.length,
    completed := (steps.filter (fun step => step.status = "completed")).length,
    failed := (steps.filter (fun step => step.status = "failed")).length,
    agents_used := (steps.map (fun step => step.agent)).eraseDups }

/-- A fixed pipeline is the ordered list of (agent name, that agent's task
logic outcome); every declared step is executed and appended in order,
mirroring the hard-coded sequential await/append structure of the fixed
workflows in task_graph.py. -/
def run_fixed_pipeline (pipeline : List (String × Except String String)) :
    List StepResult :=
  pipeline.map (fun step => agent_execute step.1 step.2)

/-- Result of execute_workflow for a fixed pipeline: the run-level status is
set to completed after the pipeline body returns (agent_execute is total, so
the body always returns), and the summary is attached. -/
structure WorkflowRunResult where
  status : String
  steps : List StepResult
  summary : WorkflowSummary
deriving DecidableEq

/-- TaskGraph.execute_workflow specialised to a fixed pipeline. -/
def execute_fixed_workflow (pipeline : List (String × Except String String)) :
    WorkflowRunResult :=
  let steps := run_fixed_pipeline pipeline
  { status := "completed", steps := steps,
    summary := generate_workflow_summary steps }

/-- TaskGraph._custom_workflow: iterates over input_data["agents"]; an agent
name is executed and its result appended only when it is a key of
self.agents (the registry); names not in the registry are passed over by the
membership guard.  run_agent gives each registered agent's task logic
outcome. -/
def custom_workflow (registry : List String) (agents_to_run : List String)
    (run_agent : String → Except String String) : WorkflowRunResult :=
  let steps := agents_to_run.filterMap (fun name =>
    if name ∈ registry then some (agent_execute name (run_agent name)) else none)
  { status := "completed", steps := steps,
    summary := generate_workflow_summary steps }

end TaskGraph

open NemotronBridge CostAwareOrchestrator TaskGraph

/-- Helper: on a cache hit call_nemotron returns the stored result with
cached set to true, and only marks the stored entry as cached; no budget
field is touched. -/
theorem call_nemotron_cache_hit (st : BridgeState) (provider : Option ProviderUsage)
    (prompt agent_name task_type : String) (max_tokens : Nat) (r : CallResult) :
    alist_find (cache_key agent_name prompt task_type) st.response_cache = some r →
    (call_nemotron st provider prompt agent_name task_type max_tokens).1
        = { r with cached := true } ∧
    (call_nemotron st provider prompt agent_name task_type max_tokens).2
        = { st with
            response_cache :=
              set_cached_true (cache_key agent_name prompt task_type) st.response_cache } := by
  intro hhit
  unfold call_nemotron
  dsimp only
  rw [hhit]
  exact ⟨rfl, rfl⟩

/-- Helper: a successful remote call prepends its result to the response
cache under the call's cache key. -/
theorem call_nemotron_remote_success (st : BridgeState) (usage : ProviderUsage)
    (prompt agent_name task_type : String) (max_tokens : Nat) :
    alist_find (cache_key agent_name prompt task_type) st.response_cache = none →
    st.has_client = true →
    (can_afford_call st max_tokens (get_model_for_agent agent_name)).1 = true →
    (call_nemotron st (some usage) prompt agent_name task_type max_tokens).2.response_cache
        = (cache_key agent_name prompt task_type,
           (call_nemotron st (some usage) prompt agent_name task_type max_tokens).1)
          :: st.response_cache := by
  intro hmiss hc hafford
  unfold call_nemotron
  dsimp only
  rw [hmiss]
  dsimp only
  rw [if_neg (by simp [hc]), if_neg (by simp [hafford])]

/-- C1: whenever the remote provider call fails (the provider oracle is none,
covering exceptions, timeouts, non-200 and malformed responses) or the API
credentials are missing (has_client = false), call_nemotron returns the
simulated fallback: a non-error result (success = true) with zero prompt,
completion and total tokens and zero cost, and the bridge state — in
particular the cumulative spend total_cost — is completely unchanged, so no
error propagates to the caller. -/
theorem gateway_fail_open_ledger_unchanged :
    ∀ (st : BridgeState) (provider : Option ProviderUsage)
      (prompt agent_name task_type : String) (max_tokens : Nat),
      alist_find (cache_key agent_name prompt task_type) st.response_cache = none →
      (st.has_client = false ∨ provider = none) →
      ((call_nemotron st provider prompt agent_name task_type max_tokens).1.success
          = true ∧
       (call_nemotron st provider prompt agent_name task_type max_tokens).1.prompt_tokens
          = 0 ∧
       (call_nemotron st provider prompt agent_name task_type max_tokens).1.completion_tokens
          = 0 ∧
       (call_nemotron st provider prompt agent_name task_type max_tokens).1.total_tokens
          = 0 ∧
       (call_nemotron st provider prompt agent_name task_type max_tokens).1.cost = 0 ∧
       (call_nemotron st provider prompt agent_name task_type max_tokens).2 = st) := by
  intro st provider prompt agent_name task_type max_tokens hmiss hfail
  have hres : call_nemotron st provider prompt agent_name task_type max_tokens
      = fallback_to_simulated st prompt agent_name := by
    unfold call_nemotron
    dsimp only
    rw [hmiss]
    dsimp only
    rcases hfail with hc | hp
    · rw [if_pos hc]
    · by_cases hcl : st.has_client = false
      · rw [if_pos hcl]
      · rw [if_neg hcl]
        subst hp
        split_ifs <;> rfl
  rw [hres]
  exact ⟨rfl, rfl, rfl, rfl, rfl, rfl⟩

/-- C1 witness: the fail-open theorem instantiated at a fresh bridge with no
API key and a failing provider. -/
theorem gateway_fail_open_witness :
    ((call_nemotron (init_bridge false) none "p" "strategy" "general" 2000).1.success
        = true ∧
     (call_nemotron (init_bridge false) none "p" "strategy" "general" 2000).1.prompt_tokens
        = 0 ∧
     (call_nemotron (init_bridge false) none "p" "strategy" "general" 2000).1.completion_tokens
        = 0 ∧
     (call_nemotron (init_bridge false) none "p" "strategy" "general" 2000).1.total_tokens
        = 0 ∧
     (call_nemotron (init_bridge false) none "p" "strategy" "general" 2000).1.cost = 0 ∧
     (call_nemotron (init_bridge false) none "p" "strategy" "general" 2000).2
        = init_bridge false) :=
  gateway_fail_open_ledger_unchanged (init_bridge false) none "p" "strategy"
    "general" 2000 rfl (Or.inl rfl)

/-- Helper: _track_cost adds (tokens / 1000) * rate to used_budget. -/
theorem track_cost_used_budget (st : OrchestratorState) (t : Nat) :
    (track_cost st t).used_budget
      = st.used_budget + ((t : ℚ) / 1000) * st.nemotron_cost_per_1k_tokens := rfl

/-- Helper: _track_cost does not change the per-1k cost rate. -/
theorem track_cost_rate (st : OrchestratorState) (t : Nat) :
    (track_cost st t).nemotron_cost_per_1k_tokens
      = st.nemotron_cost_per_1k_tokens := rfl

/-- Helper: folding _track_cost over a token list adds exactly the sum of the
individual costs to used_budget. -/
theorem foldl_track_cost_used (toks : List Nat) :
    ∀ st : OrchestratorState,
      (toks.foldl track_cost st).used_budget
        = st.used_budget
          + (toks.map
              (fun (t : Nat) => ((t : ℚ) / 1000) * st.nemotron_cost_per_1k_tokens)).sum := by
  induction toks with
  | nil => intro st; simp
  | cons t ts ih =>
      intro st
      simp only [List.foldl_cons, List.map_cons, List.sum_cons]
      rw [ih (track_cost st t)]
      rw [track_cost_used_budget, track_cost_rate]
      ring

/-- C2: for every finite sequence of cost recordings (each with a natural,
hence non-negative, token count) the used budget after the sequence equals
the starting used budget plus the exact sum of the individual recorded
costs; starting from a non-negative used budget it stays non-negative; and
each single recording, as well as the whole sequence, never decreases
used_budget (given the non-negative cost rate the source sets at
construction). -/
theorem budget_ledger_exact_sum_monotone :
    ∀ (st : OrchestratorState) (toks : List Nat),
      0 ≤ st.nemotron_cost_per_1k_tokens →
      ((toks.foldl track_cost st).used_budget
          = st.used_budget
            + (toks.map
                (fun (t : Nat) => ((t : ℚ) / 1000) * st.nemotron_cost_per_1k_tokens)).sum)
      ∧ (0 ≤ st.used_budget → 0 ≤ (toks.foldl track_cost st).used_budget)
      ∧ (∀ t : Nat, st.used_budget ≤ (track_cost st t).used_budget)
      ∧ st.used_budget ≤ (toks.foldl track_cost st).used_budget := by
  intro st toks hrate
  have hsum : 0 ≤ (toks.map
      (fun (t : Nat) => ((t : ℚ) / 1000) * st.nemotron_cost_per_1k_tokens)).sum := by
    apply List.sum_nonneg
    intro x hx
    obtain ⟨t, _, rfl⟩ := List.mem_map.mp hx
    have ht : (0 : ℚ) ≤ (t : ℚ) / 1000 := by positivity
    exact mul_nonneg ht hrate
  refine ⟨foldl_track_cost_used toks st, ?_, ?_, ?_⟩
  · intro h0
    rw [foldl_track_cost_used toks st]
    linarith
  · intro t
    rw [track_cost_used_budget]
    have ht : (0 : ℚ) ≤ (t : ℚ) / 1000 := by positivity
    nlinarith
  · rw [foldl_track_cost_used toks st]
    linarith

/-- C2 witness: the ledger theorem instantiated at a fresh orchestrator and
the token sequence [1000, 500]. -/
theorem budget_ledger_witness :
    (([1000, 500] : List Nat).foldl track_cost init_orchestrator).used_budget
      = init_orchestrator.used_budget
        + (([1000, 500] : List Nat).map
            (fun (t : Nat) => ((t : ℚ) / 1000)
              * init_orchestrator.nemotron_cost_per_1k_tokens)).sum ∧
    init_orchestrator.used_budget
      ≤ (([1000, 500] : List Nat).foldl track_cost init_orchestrator).used_budget :=
  ⟨(budget_ledger_exact_sum_monotone init_orchestrator [1000, 500]
      (by norm_num [init_orchestrator])).1,
   (budget_ledger_exact_sum_monotone init_orchestrator [1000, 500]
      (by norm_num [init_orchestrator])).2.2.2⟩

/-- C3: the routing decision follows the three-tier table evaluated in order
(high tier at value 0.8 with the 0.3 threshold and the critical emergency
override above the 0.1 threshold, medium tier at value 0.5 with the 0.5
threshold, low tier always local), and the two concrete instances required
by the spec: value score 1.0 with remaining-budget fraction 0.15 routes
remote, and value score 1.0 with fraction 0.05 routes local. -/
theorem routing_three_tier_table :
    (∀ (st : OrchestratorState) (tt desc : String) (ctx : AgentContextFlags),
      (should_use_nemotron st tt desc ctx).1.2
          = (calculate_task_value st.task_value_cache tt desc ctx).1 ∧
      ((should_use_nemotron st tt desc ctx).1.1 = true ↔
        ((calculate_task_value st.task_value_cache tt desc ctx).1 ≥ 8/10 ∧
          ((st.total_budget - st.used_budget) / st.total_budget > 3/10 ∨
           ((st.total_budget - st.used_budget) / st.total_budget > 1/10 ∧
            (calculate_task_value st.task_value_cache tt desc ctx).1 ≥ 1))) ∨
        (¬ (calculate_task_value st.task_value_cache tt desc ctx).1 ≥ 8/10 ∧
         (calculate_task_value st.task_value_cache tt desc ctx).1 ≥ 1/2 ∧
         (st.total_budget - st.used_budget) / st.total_budget > 5/10)))
    ∧ (should_use_nemotron emergency_budget_state "orchestration" "d" urgent_flags).1
        = (true, 1)
    ∧ (should_use_nemotron exhausted_budget_state "orchestration" "d" urgent_flags).1
        = (false, 1) := by
  refine ⟨fun st tt desc ctx => ?_, ?_, ?_⟩
  · unfold should_use_nemotron
    simp only [TaskValue.HIGH, TaskValue.CRITICAL, TaskValue.MEDIUM]
    split_ifs with h1 h2 h3 h4 h5
    · exact ⟨rfl, iff_of_true rfl (Or.inl ⟨h1, Or.inl h2⟩)⟩
    · exact ⟨rfl, iff_of_true rfl (Or.inl ⟨h1, Or.inr h3⟩)⟩
    · refine ⟨rfl, iff_of_false (by simp) ?_⟩
      rintro (⟨hv, hb | hc⟩ | ⟨hnv, _, _⟩)
      · exact h2 hb
      · exact h3 hc
      · exact hnv h1
    · exact ⟨rfl, iff_of_true rfl (Or.inr ⟨h1, h4, h5⟩)⟩
    · refine ⟨rfl, iff_of_false (by simp) ?_⟩
      rintro (⟨hv, _⟩ | ⟨_, _, hf⟩)
      · exact h1 hv
      · exact h5 hf
    · refine ⟨rfl, iff_of_false (by simp) ?_⟩
      rintro (⟨hv, _⟩ | ⟨_, hm, _⟩)
      · exact h1 hv
      · exact h4 hm
  · simp [should_use_nemotron, calculate_task_value, emergency_budget_state,
      init_orchestrator, alist_find, value_cache_key, urgent_flags,
      has_similar_cached_task, high_value_types, TaskValue.HIGH, TaskValue.CRITICAL]
    norm_num
  · simp [should_use_nemotron, calculate_task_value, exhausted_budget_state,
      init_orchestrator, alist_find, value_cache_key, urgent_flags,
      has_similar_cached_task, high_value_types, TaskValue.HIGH, TaskValue.CRITICAL,
      TaskValue.MEDIUM]
    norm_num

/-- C4 counterexample: with no API key configured, the first invocation falls
back to the simulated response, which is never stored in the response cache;
the second invocation with the identical cache key therefore returns
cached = false, contradicting the claim that the second of two identically
keyed invocations always returns the stored response with cached = true. -/
theorem cache_idempotence_counterexample :
    (call_nemotron
        (call_nemotron (init_bridge false) none "p" "strategy" "general" 2000).2
        none "p" "strategy" "general" 2000).1.cached = false := by
  rfl

/-- C4 amended: provided the first invocation performs a successful remote
call (client configured, affordable, provider succeeds), a second invocation
with the identical (agent_name, prompt prefix, task_type) cache key returns
exactly the stored first result with cached = true, and leaves total_cost,
call_count and call_history unchanged, so at most the one remote-call cost
is ever recorded for the key; moreover the cache-hit result is computed
before any budget or routing logic: it is unchanged under arbitrary
modification of the ledger (total_cost) and the client flag. -/
theorem cache_idempotence_after_remote_success :
    ∀ (st : BridgeState) (usage : ProviderUsage) (prov2 : Option ProviderUsage)
      (prompt agent_name task_type : String) (mt mt2 : Nat),
      alist_find (cache_key agent_name prompt task_type) st.response_cache = none →
      st.has_client = true →
      (can_afford_call st mt (get_model_for_agent agent_name)).1 = true →
      ((call_nemotron
          (call_nemotron st (some usage) prompt agent_name task_type mt).2
          prov2 prompt agent_name task_type mt2).1
        = { (call_nemotron st (some usage) prompt agent_name task_type mt).1 with
            cached := true }
      ∧ (call_nemotron
          (call_nemotron st (some usage) prompt agent_name task_type mt).2
          prov2 prompt agent_name task_type mt2).2.total_cost
        = (call_nemotron st (some usage) prompt agent_name task_type mt).2.total_cost
      ∧ (call_nemotron
          (call_nemotron st (some usage) prompt agent_name task_type mt).2
          prov2 prompt agent_name task_type mt2).2.call_count
        = (call_nemotron st (some usage) prompt agent_name task_type mt).2.call_count
      ∧ (call_nemotron
          (call_nemotron st (some usage) prompt agent_name task_type mt).2
          prov2 prompt agent_name task_type mt2).2.call_history
        = (call_nemotron st (some usage) prompt agent_name task_type mt).2.call_history
      ∧ ∀ (q : ℚ) (b : Bool),
          (call_nemotron
              { (call_nemotron st (some usage) prompt agent_name task_type mt).2 with
                total_cost := q, has_client := b }
              prov2 prompt agent_name task_type mt2).1
            = { (call_nemotron st (some usage) prompt agent_name task_type mt).1 with
                cached := true }) := by
  intro st usage prov2 prompt agent_name task_type mt mt2 hmiss hc hafford
  have hfind : alist_find (cache_key agent_name prompt task_type)
      (call_nemotron st (some usage) prompt agent_name task_type mt).2.response_cache
      = some (call_nemotron st (some usage) prompt agent_name task_type mt).1 := by
    rw [call_nemotron_remote_success st usage prompt agent_name task_type mt
      hmiss hc hafford]
    simp [alist_find]
  have hhit := call_nemotron_cache_hit
    (call_nemotron st (some usage) prompt agent_name task_type mt).2
    prov2 prompt agent_name task_type mt2
    (call_nemotron st (some usage) prompt agent_name task_type mt).1 hfind
  refine ⟨hhit.1, ?_, ?_, ?_, ?_⟩
  · rw [hhit.2]
  · rw [hhit.2]
  · rw [hhit.2]
  · intro q b
    exact (call_nemotron_cache_hit
      { (call_nemotron st (some usage) prompt agent_name task_type mt).2 with
        total_cost := q, has_client := b }
      prov2 prompt agent_name task_type mt2
      (call_nemotron st (some usage) prompt agent_name task_type mt).1 hfind).1

/-- C4 witness: the amended cache idempotence theorem instantiated at a fresh
bridge with a client, a successful 300-token remote call, and a second
invocation with the same key whose provider fails. -/
theorem cache_idempotence_witness :
    (call_nemotron
        (call_nemotron (init_bridge true) (some ⟨"ok", 100, 200, 300⟩)
          "p" "strategy" "general" 2000).2
        none "p" "strategy" "general" 2000).1
      = { (call_nemotron (init_bridge true) (some ⟨"ok", 100, 200, 300⟩)
            "p" "strategy" "general" 2000).1 with
          cached := true } :=
  (cache_idempotence_after_remote_success (init_bridge true) ⟨"ok", 100, 200, 300⟩
    none "p" "strategy" "general" 2000 2000 rfl rfl
    (by norm_num [can_afford_call, estimate_cost, get_model_for_agent,
      AGENT_MODEL_MAP, MODEL_COSTS, alist_find, init_bridge])).1

/-- Helper: agent_execute reports the executing agent's name in the step
result regardless of success or failure. -/
theorem agent_execute_agent (name : String) (logic : Except String String) :
    (agent_execute name logic).agent = name := by
  cases logic <;> rfl

/-- C5: every declared step of a fixed pipeline executes (as many step
results as pipeline entries) and the run-level status is still reported as
completed; for the pipeline [A, B, C] in which only the logic of B throws,
the summary reports total_steps = 3, completed = 2 and failed = 1, and the
step statuses in order are completed, failed, completed. -/
theorem partial_failure_continuation :
    ∀ (pipeline : List (String × Except String String)) (a c e : String),
      (execute_fixed_workflow pipeline).steps.length = pipeline.length ∧
      (execute_fixed_workflow pipeline).status = "completed" ∧
      ((execute_fixed_workflow
          [("A", Except.ok a), ("B", Except.error e), ("C", Except.ok c)]).summary.total_steps = 3 ∧
       (execute_fixed_workflow
          [("A", Except.ok a), ("B", Except.error e), ("C", Except.ok c)]).summary.completed = 2 ∧
       (execute_fixed_workflow
          [("A", Except.ok a), ("B", Except.error e), ("C", Except.ok c)]).summary.failed = 1) ∧
      ((execute_fixed_workflow
          [("A", Except.ok a), ("B", Except.error e), ("C", Except.ok c)]).steps.map
            (fun s => s.status))
        = ["completed", "failed", "completed"] := by
  intro pipeline a c e
  refine ⟨?_, rfl, ⟨?_, ?_, ?_⟩, ?_⟩
  · simp [execute_fixed_workflow, run_fixed_pipeline]
  · simp [execute_fixed_workflow, run_fixed_pipeline, generate_workflow_summary,
      agent_execute]
  · simp [execute_fixed_workflow, run_fixed_pipeline, generate_workflow_summary,
      agent_execute]
  · simp [execute_fixed_workflow, run_fixed_pipeline, generate_workflow_summary,
      agent_execute]
  · simp [execute_fixed_workflow, run_fixed_pipeline, agent_execute]

/-- C6 counterexample: for the high-value task type "orchestration" with no
context flags set, the computed task value is 0.8 (TaskValue.HIGH), not the
1.0 the claim asserts for high-value types. -/
theorem task_value_base_counterexample :
    (calculate_task_value [] "orchestration" "kickoff"
        ⟨false, false, false⟩).1 = 8/10 ∧
    (calculate_task_value [] "orchestration" "kickoff"
        ⟨false, false, false⟩).1 ≠ 1 := by
  have h : (calculate_task_value [] "orchestration" "kickoff"
      ⟨false, false, false⟩).1 = 8/10 := by
    simp [calculate_task_value, alist_find, value_cache_key,
      has_similar_cached_task, high_value_types, TaskValue.HIGH]
    norm_num [min_def]
  exact ⟨h, by rw [h]; norm_num⟩

/-- C6 amended: on a score-cache miss the task value equals a base of 0.8
for high-value types, 0.5 for medium-value types, 0.2 for low-value types
and 0.5 for unknown types, plus the additive flag adjustments +0.1, +0.1 and
+0.15, capped above at 1 (the -0.2 cached-task adjustment never fires
because the similarity check is constantly false in the source); the result
always lies in [0, 1]. -/
theorem task_value_formula_amended :
    ∀ (cache : List ((String × List Char) × ℚ)) (tt desc : String)
      (ctx : AgentContextFlags),
      alist_find (value_cache_key tt desc) cache = none →
      ((calculate_task_value cache tt desc ctx).1
          = min 1
              ((if tt ∈ high_value_types then (8 : ℚ)/10
                else if tt ∈ medium_value_types then 1/2
                else if tt ∈ low_value_types then 1/5
                else 1/2)
               + ((if ctx.affects_multiple_agents then (1 : ℚ)/10 else 0)
                  + (if ctx.time_sensitive then (1 : ℚ)/10 else 0)
                  + (if ctx.high_impact then (15 : ℚ)/100 else 0)))
        ∧ 0 ≤ (calculate_task_value cache tt desc ctx).1
        ∧ (calculate_task_value cache tt desc ctx).1 ≤ 1) := by
  intro cache tt desc ctx hmiss
  have hval : (calculate_task_value cache tt desc ctx).1
      = min 1
          ((if tt ∈ high_value_types then (8 : ℚ)/10
            else if tt ∈ medium_value_types then 1/2
            else if tt ∈ low_value_types then 1/5
            else 1/2)
           + ((if ctx.affects_multiple_agents then (1 : ℚ)/10 else 0)
              + (if ctx.time_sensitive then (1 : ℚ)/10 else 0)
              + (if ctx.high_impact then (15 : ℚ)/100 else 0))) := by
    simp only [calculate_task_value, hmiss, has_similar_cached_task,
      TaskValue.HIGH, TaskValue.MEDIUM, TaskValue.LOW]
    norm_num
  refine ⟨hval, ?_, ?_⟩
  · rw [hval]
    have hbase : (0 : ℚ) ≤ (if tt ∈ high_value_types then (8 : ℚ)/10
        else if tt ∈ medium_value_types then 1/2
        else if tt ∈ low_value_types then 1/5
        else 1/2) := by split_ifs <;> norm_num
    have hadj : (0 : ℚ) ≤ ((if ctx.affects_multiple_agents then (1 : ℚ)/10 else 0)
        + (if ctx.time_sensitive then (1 : ℚ)/10 else 0)
        + (if ctx.high_impact then (15 : ℚ)/100 else 0)) := by
      split_ifs <;> norm_num
    have h01 : (0 : ℚ) ≤ 1 := by norm_num
    exact le_min h01 (by linarith)
  · rw [hval]; exact min_le_left _ _

/-- C6 witness: the amended task value formula instantiated at the low-value
type "formatting" with no flags, from a fresh cache. -/
theorem task_value_formula_witness :
    0 ≤ (calculate_task_value [] "formatting" "x" ⟨false, false, false⟩).1 ∧
    (calculate_task_value [] "formatting" "x" ⟨false, false, false⟩).1 ≤ 1 :=
  ⟨(task_value_formula_amended [] "formatting" "x" ⟨false, false, false⟩ rfl).2.1,
   (task_value_formula_amended [] "formatting" "x" ⟨false, false, false⟩ rfl).2.2⟩

/-- C7 counterexample: at 92 percent used, the cost-aware orchestrator's
budget level query answers "critical" although 92 is below the claimed
95-percent critical threshold (its thresholds are 90 / 75 / 50). -/
theorem budget_level_counterexample :
    CostAwareOrchestrator.get_budget_status_level 92 = "critical" ∧
    ¬ ((92 : ℚ) ≥ 95) := by
  constructor
  · norm_num [CostAwareOrchestrator.get_budget_status_level]
  · norm_num

/-- C7 amended: the Nemotron bridge's budget status classification uses the
claimed thresholds 95 / 85 / 70, while the cost-aware orchestrator's budget
level classification uses thresholds 90 / 75 / 50; both have exactly the
four tiers critical, warning, moderate and healthy. -/
theorem budget_level_thresholds_amended :
    ∀ p : ℚ,
      (p ≥ 95 → NemotronBridge.get_budget_status p = "critical") ∧
      (85 ≤ p → p < 95 → NemotronBridge.get_budget_status p = "warning") ∧
      (70 ≤ p → p < 85 → NemotronBridge.get_budget_status p = "moderate") ∧
      (p < 70 → NemotronBridge.get_budget_status p = "healthy") ∧
      (p ≥ 90 → CostAwareOrchestrator.get_budget_status_level p = "critical") ∧
      (75 ≤ p → p < 90 → CostAwareOrchestrator.get_budget_status_level p = "warning") ∧
      (50 ≤ p → p < 75 → CostAwareOrchestrator.get_budget_status_level p = "moderate") ∧
      (p < 50 → CostAwareOrchestrator.get_budget_status_level p = "healthy") := by
  intro p
  unfold NemotronBridge.get_budget_status CostAwareOrchestrator.get_budget_status_level
  refine ⟨?_, ?_, ?_, ?_, ?_, ?_, ?_, ?_⟩
  · intro h; rw [if_pos h]
  · intro h1 h2; rw [if_neg (by linarith), if_pos h1]
  · intro h1 h2; rw [if_neg (by linarith), if_neg (by linarith), if_pos h1]
  · intro h
    rw [if_neg (by linarith), if_neg (by linarith), if_neg (by linarith)]
  · intro h; rw [if_pos h]
  · intro h1 h2; rw [if_neg (by linarith), if_pos h1]
  · intro h1 h2; rw [if_neg (by linarith), if_neg (by linarith), if_pos h1]
  · intro h
    rw [if_neg (by linarith), if_neg (by linarith), if_neg (by linarith)]

/-- C7 witness: the amended threshold theorem instantiated at 96, 92 and 80
percent. -/
theorem budget_level_thresholds_witness :
    NemotronBridge.get_budget_status 96 = "critical" ∧
    CostAwareOrchestrator.get_budget_status_level 92 = "critical" ∧
    NemotronBridge.get_budget_status 80 = "moderate" :=
  ⟨(budget_level_thresholds_amended 96).1 (by norm_num),
   (budget_level_thresholds_amended 92).2.2.2.2.1 (by norm_num),
   (budget_level_thresholds_amended 80).2.2.1 (by norm_num) (by norm_num)⟩

/-- C8 counterexample: a custom workflow over the registry containing only
"strategy", asked to run ["strategy", "bogus"], produces a single step for
"strategy" and no failed step at all — the missing agent "bogus" is silently
skipped rather than reported as a failed step. -/
theorem custom_workflow_missing_agent_counterexample :
    ((custom_workflow ["strategy"] ["strategy", "bogus"]
        (fun _ => Except.ok "done")).steps.map (fun s => s.agent) = ["strategy"])
    ∧ (custom_workflow ["strategy"] ["strategy", "bogus"]
        (fun _ => Except.ok "done")).summary.failed = 0
    ∧ (custom_workflow ["strategy"] ["strategy", "bogus"]
        (fun _ => Except.ok "done")).summary.total_steps = 1 := by
  refine ⟨?_, ?_, ?_⟩ <;>
    simp [custom_workflow, generate_workflow_summary, agent_execute]

/-- C8 amended: a custom workflow executes exactly the listed agents that
are present in the registry, in order, and silently skips names missing from
the registry (no step result is recorded for them); the run is not aborted:
a summary over the executed steps is still produced and every recorded step
belongs to a registered agent, with the run-level status still reported. -/
theorem custom_workflow_skips_missing_agents :
    ∀ (registry agents_to_run : List String)
      (run_agent : String → Except String String),
      ((custom_workflow registry agents_to_run run_agent).steps
          = (agents_to_run.filter (fun n => decide (n ∈ registry))).map
              (fun n => agent_execute n (run_agent n)))
      ∧ (custom_workflow registry agents_to_run run_agent).summary.total_steps
          = (agents_to_run.filter (fun n => decide (n ∈ registry))).length
      ∧ (custom_workflow registry agents_to_run run_agent).steps.all
          (fun s => decide (s.agent ∈ registry)) = true
      ∧ (custom_workflow registry agents_to_run run_agent).status = "completed" := by
  intro registry agents_to_run run_agent
  have hsteps : (custom_workflow registry agents_to_run run_agent).steps
      = (agents_to_run.filter (fun n => decide (n ∈ registry))).map
          (fun n => agent_execute n (run_agent n)) := by
    show (agents_to_run.filterMap (fun name =>
        if name ∈ registry then some (agent_execute name (run_agent name))
        else none))
      = (agents_to_run.filter (fun n => decide (n ∈ registry))).map
          (fun n => agent_execute n (run_agent n))
    induction agents_to_run with
    | nil => rfl
    | cons n ns ih =>
        by_cases h : n ∈ registry
        · simp [h, ih]
        · simp [h, ih]
  refine ⟨hsteps, ?_, ?_, rfl⟩
  · show (custom_workflow registry agents_to_run run_agent).steps.length = _
    rw [hsteps]
    simp
  · rw [List.all_eq_true]
    intro s hs
    rw [hsteps] at hs
    obtain ⟨n, hn, rfl⟩ := List.mem_map.mp hs
    have hmem := List.of_mem_filter hn
    rw [agent_execute_agent]
    exact hmem

/-- C9 counterexample: after a first scoring of ("research", same
description) with the high_impact flag (score 0.65), a second scoring with
no flags set returns the cached 0.65 instead of the 0.5 its own flags
determine — the score cache key ignores the context flags. -/
theorem task_value_flag_sensitivity_counterexample :
    ((calculate_task_value
        ((calculate_task_value [] "research" "optimize onboarding"
            ⟨false, false, true⟩).2)
        "research" "optimize onboarding" ⟨false, false, false⟩).1 = 13/20)
    ∧ ((calculate_task_value [] "research" "optimize onboarding"
          ⟨false, false, false⟩).1 = 1/2)
    ∧ ((13 : ℚ)/20 ≠ 1/2) := by
  refine ⟨?_, ?_, by norm_num⟩
  · simp [calculate_task_value, alist_find, value_cache_key,
      has_similar_cached_task, high_value_types, medium_value_types,
      TaskValue.MEDIUM]
    norm_num [min_def]
  · simp [calculate_task_value, alist_find, value_cache_key,
      has_similar_cached_task, high_value_types, medium_value_types,
      TaskValue.MEDIUM]
    norm_num [min_def]

/-- C9 amended: the score function is a pure function of (cache, task_type,
description, flags), but because the score cache is keyed only by task_type
and the description prefix, any second scoring of the same task_type and
description — from the cache state the first scoring produced — returns the
first score, whatever the second invocation's context flags are. -/
theorem task_value_cache_ignores_flags :
    ∀ (cache : List ((String × List Char) × ℚ)) (tt desc : String)
      (ctx1 ctx2 : AgentContextFlags),
      (calculate_task_value (calculate_task_value cache tt desc ctx1).2
          tt desc ctx2).1
        = (calculate_task_value cache tt desc ctx1).1 := by
  intro cache tt desc ctx1 ctx2
  unfold calculate_task_value
  cases h : alist_find (value_cache_key tt desc) cache with
  | some v => simp [h]
  | none => simp [h, alist_find]

/-- C10: should_use_nemotron leaves the total budget, the used budget and
the budget history unchanged — its only state effect is on the task-value
score cache, which is either untouched or extended by exactly one entry for
the queried key — and can_afford_call returns the bridge state completely
unchanged. -/
theorem routing_query_frame :
    (∀ (st : OrchestratorState) (tt desc : String) (ctx : AgentContextFlags),
      ((should_use_nemotron st tt desc ctx).2.total_budget = st.total_budget ∧
       (should_use_nemotron st tt desc ctx).2.used_budget = st.used_budget ∧
       (should_use_nemotron st tt desc ctx).2.budget_history = st.budget_history) ∧
      ((should_use_nemotron st tt desc ctx).2.task_value_cache = st.task_value_cache ∨
       ∃ v : ℚ, (should_use_nemotron st tt desc ctx).2.task_value_cache
          = ((value_cache_key tt desc), v) :: st.task_value_cache))
    ∧ (∀ (bst : NemotronBridge.BridgeState) (n : Nat) (m : String),
        (NemotronBridge.can_afford_call bst n m).2 = bst) := by
  constructor
  · intro st tt desc ctx
    have hstate : (should_use_nemotron st tt desc ctx).2
        = { st with task_value_cache :=
              (calculate_task_value st.task_value_cache tt desc ctx).2 } := by
      unfold should_use_nemotron
      dsimp only
      split_ifs <;> rfl
    constructor
    · rw [hstate]
      exact ⟨rfl, rfl, rfl⟩
    · rw [hstate]
      show (calculate_task_value st.task_value_cache tt desc ctx).2
          = st.task_value_cache ∨ _
      unfold calculate_task_value
      cases h : alist_find (value_cache_key tt desc) st.task_value_cache with
      | some v => simp [h]
      | none =>
          simp only [h]
          right
          exact ⟨_, rfl⟩
  · intro bst n m
    unfold NemotronBridge.can_afford_call
    dsimp only
    split_ifs <;> rfl
